import Mathlib

/-!
Verification of the badminton tournament engine (team setup, round-robin
schedule generation, badminton game scoring, standings, knockout bracket)
against its natural-language specification.  The definitions below are a
shallow embedding of the JavaScript/TypeScript source: `app.js` (frontend
tournament engine) and `src/db.ts` (patch-based persistence layer).
-/

namespace Showdown

/-- The two round-robin pools, `'A' | 'B'` in the source. -/
inductive Pool where
  | A
  | B
deriving DecidableEq, Repr

/-- String form of a pool identifier, as used in match-id interpolation. -/
def Pool.str : Pool → String
  | .A => "A"
  | .B => "B"

/-- A game winner marker, `'team1' | 'team2'` in the source. -/
inductive Side where
  | team1
  | team2
deriving DecidableEq, Repr

/-- `Team` from `types.ts`: id, display name, player-name slots. -/
structure Team where
  id : String
  name : String
  players : List String
deriving DecidableEq, Repr

/-- `Game` from `types.ts`: a doubles sub-match with optional scores. -/
structure Game where
  id : Nat
  team1Players : List String
  team2Players : List String
  team1Score : Option Int
  team2Score : Option Int
  winner : Option Side
deriving DecidableEq, Repr

/-- `Match` from `types.ts`: a group-stage contest of 3 games. -/
structure Match where
  id : String
  pool : Pool
  team1Id : String
  team2Id : String
  team1Name : String
  team2Name : String
  games : List Game
  team1GamesWon : Nat
  team2GamesWon : Nat
  winner : Option String
  completed : Bool
deriving DecidableEq, Repr

/-- `KnockoutMatch` from `types.ts`: seeds plus resolvable team slots. -/
structure KnockoutMatch where
  id : String
  seed1 : String
  seed2 : String
  team1 : Option Team
  team2 : Option Team
  games : List Game
  team1GamesWon : Nat
  team2GamesWon : Nat
  winner : Option String
  completed : Bool
deriving DecidableEq, Repr

/-- `KnockoutMatches` from `types.ts`: the three bracket slots. -/
structure KnockoutMatches where
  semi1 : Option KnockoutMatch
  semi2 : Option KnockoutMatch
  final : Option KnockoutMatch
deriving DecidableEq, Repr

/-- `Teams` from `types.ts`: the two pools' team lists. -/
structure Teams where
  A : List Team
  B : List Team
deriving DecidableEq, Repr

/-- `state.teams[pool]` indexing. -/
def Teams.pool (ts : Teams) : Pool → List Team
  | .A => ts.A
  | .B => ts.B

/-- `TournamentState` from `types.ts`.  The source field `matches` is a
reserved word in Lean, hence the primed name `matches'`. -/
structure TournamentState where
  teams : Teams
  matches' : List Match
  knockoutMatches : KnockoutMatches
  scheduleGenerated : Bool
deriving DecidableEq, Repr

/-- A derived per-team standings row (`calculateStandings` row shape). -/
structure Standing where
  id : String
  name : String
  played : Nat
  matchesWon : Nat
  matchesLost : Nat
  gamesWon : Nat
  gamesLost : Nat
  points : Nat
deriving DecidableEq, Repr

/-- `isGameWinner(score1, score2)` from `app.js` lines 641-650:
badminton win detection (first to 21, deuce needs 2-point lead, cap 30). -/
def isGameWinner (score1 score2 : Int) : Bool :=
  if score1 ≤ score2 then false
  else if score1 = 30 then true
  else if 21 ≤ score1 ∧ score2 < 20 then true
  else if 21 ≤ score1 ∧ 20 ≤ score2 ∧ 2 ≤ score1 - score2 then true
  else false

example : isGameWinner 21 19 = true := by decide
example : isGameWinner 21 20 = false := by decide
example : isGameWinner 22 20 = true := by decide
example : isGameWinner 20 20 = false := by decide
example : isGameWinner 30 29 = true := by decide

/-! ## Schedule generation (`generateSchedule`, `generatePoolMatches`) -/

/-- One entry of the `pairings` array in `generatePoolMatches` /
`initializeKnockoutGames`: the 2-of-3 player index pair used on each side. -/
structure Pairing where
  team1Pair : Nat × Nat
  team2Pair : Nat × Nat
deriving DecidableEq, Repr

/-- The fixed `pairings` array: index combinations (0,1), (0,2), (1,2),
identical on both sides. -/
def pairings : List Pairing :=
  [⟨(0, 1), (0, 1)⟩, ⟨(0, 2), (0, 2)⟩, ⟨(1, 2), (1, 2)⟩]

/-- The games built for a pair of teams from the `pairings` array (this code
is written out twice in the source, in `generatePoolMatches` and in
`initializeKnockoutGames`, with identical text).  `players[p]` array access
is modelled with default `""`; the app keeps every `players` list at length
3 so the default is never read in reachable states. -/
def mkPairingGames (team1 team2 : Team) : List Game :=
  pairings.mapIdx fun gameIndex pairing =>
    { id := gameIndex
      team1Players := [team1.players.getD pairing.team1Pair.1 "",
                       team1.players.getD pairing.team1Pair.2 ""]
      team2Players := [team2.players.getD pairing.team2Pair.1 "",
                       team2.players.getD pairing.team2Pair.2 ""]
      team1Score := none
      team2Score := none
      winner := none }

/-- The group `Match` record built inside `generatePoolMatches`. -/
def mkGroupMatch (pool : Pool) (team1 team2 : Team) : Match :=
  { id := pool.str ++ "-" ++ team1.id ++ "-" ++ team2.id
    pool := pool
    team1Id := team1.id
    team2Id := team2.id
    team1Name := team1.name
    team2Name := team2.name
    games := mkPairingGames team1 team2
    team1GamesWon := 0
    team2GamesWon := 0
    winner := none
    completed := false }

/-- `generatePoolMatches(pool)` from `app.js` lines 516-560: the three
matchups (0,1), (0,2), (1,2) over the pool's team array.  A missing team
index would be a TypeError in the source; that is modelled as `none`. -/
def generatePoolMatches (pool : Pool) (teams : List Team) : Option (List Match) :=
  let matchups : List (Nat × Nat) := [(0, 1), (0, 2), (1, 2)]
  matchups.mapM fun ij =>
    match teams.get? ij.1, teams.get? ij.2 with
    | some team1, some team2 => some (mkGroupMatch pool team1 team2)
    | _, _ => none

/-- `createKnockoutMatch(id, seed1, seed2)` from `app.js` lines 562-575. -/
def createKnockoutMatch (id seed1 seed2 : String) : KnockoutMatch :=
  { id := id, seed1 := seed1, seed2 := seed2
    team1 := none, team2 := none, games := []
    team1GamesWon := 0, team2GamesWon := 0
    winner := none, completed := false }

/-- `!s.trim()` in JS: the string is empty or all whitespace.  (Stated via
`all isWhitespace`, which is equivalent to `trim = ""` and evaluates in the
kernel, unlike `String.trim`.) -/
def isBlank (s : String) : Bool := s.data.all Char.isWhitespace

/-- The per-team validation loop body of `generateSchedule`: first a blank
team name, then the first blank player slot, produce a toast message. -/
def teamError (team : Team) : Option String :=
  if isBlank team.name then some "Please enter names for all teams"
  else if team.players.any (fun p => isBlank p) then
    some ("Please select all players for team " ++ team.name)
  else none

/-- Outcome of `generateSchedule`: a validation toast leaving the state as
it was, a TypeError (unreachable with 3-team pools), or the built state. -/
inductive GenResult where
  | failure (msg : String) (post : TournamentState)
  | crash
  | success (post : TournamentState)
deriving DecidableEq, Repr

/-- `generateSchedule` from `app.js` lines 461-514 (pure part, before the
`saveTournament` network call): validation, then pool matches for A and B,
then the fresh knockout bracket, then the `scheduleGenerated` flag. -/
def generateSchedule (st : TournamentState) : GenResult :=
  match (st.teams.A ++ st.teams.B).findSome? teamError with
  | some msg => .failure msg st
  | none =>
    if ((st.teams.A ++ st.teams.B).flatMap fun t => t.players).Nodup then
      match generatePoolMatches Pool.A st.teams.A,
            generatePoolMatches Pool.B st.teams.B with
      | some ma, some mb =>
        .success { st with
          matches' := ma ++ mb
          knockoutMatches :=
            { semi1 := some (createKnockoutMatch "semi1" "A1" "B2")
              semi2 := some (createKnockoutMatch "semi2" "B1" "A2")
              final := some (createKnockoutMatch "final" "W1" "W2") }
          scheduleGenerated := true }
      | _, _ => .crash
    else .failure "Each player can only be on one team" st

/-- `initializeKnockoutGames(match)` from `app.js` lines 793-808, as a
function of the two (resolved) teams; it fills `games` from `pairings`. -/
def initKnockoutGames (team1 team2 : Team) : List Game :=
  mkPairingGames team1 team2

/-! ## Score entry (`saveScore`) -/

/-- The `games.forEach` body of `saveScore` (`app.js` lines 816-881), over
the games paired with the two parsed score inputs of each game: returns the
updated games, the two win counters, and the `allGamesScored` flag.
A game whose two scores are not both present keeps its previous `winner`
field untouched, exactly as in the source. -/
def scoreGames : List (Game × (Option Int × Option Int)) → List Game × Nat × Nat × Bool
  | [] => ([], 0, 0, true)
  | (g, (in1, in2)) :: rest =>
    let (gs, w1, w2, all) := scoreGames rest
    match in1, in2 with
    | some s1, some s2 =>
      if isGameWinner s1 s2 then
        ({ g with team1Score := some s1, team2Score := some s2,
                  winner := some Side.team1 } :: gs, w1 + 1, w2, all)
      else if isGameWinner s2 s1 then
        ({ g with team1Score := some s1, team2Score := some s2,
                  winner := some Side.team2 } :: gs, w1, w2 + 1, all)
      else
        ({ g with team1Score := some s1, team2Score := some s2,
                  winner := none } :: gs, w1, w2, false)
    | _, _ =>
      ({ g with team1Score := in1, team2Score := in2 } :: gs, w1, w2, false)

/-- `saveScore` (`app.js` lines 816-881), group-match path: `inputs` are
the parsed modal inputs (`null` when the text box is empty), aligned with
the match's games.  If all games decide, a strictly greater win count sets
the winner id; otherwise the `winner` field retains its previous value. -/
def saveScore (m : Match) (inputs : List (Option Int × Option Int)) : Match :=
  let r := scoreGames (m.games.zip inputs)
  let gs := r.1
  let team1Wins := r.2.1
  let team2Wins := r.2.2.1
  let allGamesScored := r.2.2.2
  { m with
    games := gs
    team1GamesWon := team1Wins
    team2GamesWon := team2Wins
    completed := allGamesScored
    winner :=
      if allGamesScored then
        if team1Wins > team2Wins then some m.team1Id
        else if team2Wins > team1Wins then some m.team2Id
        else m.winner
      else m.winner }

/-! ## Standings (`calculateStandings`) -/

/-- Mutation of the first list element satisfying `p` (JS `find` returns a
reference into the array; mutating it updates that one element in place). -/
def modifyFirst (p : α → Bool) (f : α → α) : List α → List α
  | [] => []
  | x :: xs => if p x then f x :: xs else x :: modifyFirst p f xs

/-- The zero-initialised standings rows built from the pool's team list. -/
def initStandings (teams : List Team) : List Standing :=
  teams.map fun team =>
    { id := team.id, name := team.name
      played := 0, matchesWon := 0, matchesLost := 0
      gamesWon := 0, gamesLost := 0, points := 0 }

/-- The field mutations `calculateStandings` applies to `team1Standing`
for one completed match. -/
def team1Delta (m : Match) (s : Standing) : Standing :=
  let s := { s with played := s.played + 1
                    gamesWon := s.gamesWon + m.team1GamesWon
                    gamesLost := s.gamesLost + m.team2GamesWon }
  if m.winner = some m.team1Id then
    { s with matchesWon := s.matchesWon + 1, points := s.points + 2 }
  else if m.winner = some m.team2Id then
    { s with matchesLost := s.matchesLost + 1 }
  else
    { s with points := s.points + 1 }

/-- The field mutations `calculateStandings` applies to `team2Standing`
for one completed match. -/
def team2Delta (m : Match) (s : Standing) : Standing :=
  let s := { s with played := s.played + 1
                    gamesWon := s.gamesWon + m.team2GamesWon
                    gamesLost := s.gamesLost + m.team1GamesWon }
  if m.winner = some m.team1Id then
    { s with matchesLost := s.matchesLost + 1 }
  else if m.winner = some m.team2Id then
    { s with matchesWon := s.matchesWon + 1, points := s.points + 2 }
  else
    { s with points := s.points + 1 }

/-- The `poolMatches.forEach` body of `calculateStandings` (`app.js` lines
925-954): skip incomplete matches; find both standings rows; if both exist
mutate them with the two deltas. -/
def applyMatch (m : Match) (sts : List Standing) : List Standing :=
  if m.completed = false then sts
  else if ((sts.find? fun s => s.id == m.team1Id).isSome ∧
           (sts.find? fun s => s.id == m.team2Id).isSome) then
    modifyFirst (fun s => s.id == m.team2Id) (team2Delta m)
      (modifyFirst (fun s => s.id == m.team1Id) (team1Delta m) sts)
  else sts

/-- The aggregation part of `calculateStandings` (before sorting). -/
def rawStandings (st : TournamentState) (pool : Pool) : List Standing :=
  (st.matches'.filter fun m => m.pool == pool).foldl
    (fun acc m => applyMatch m acc)
    (initStandings (st.teams.pool pool))

/-- Game differential `gamesWon − gamesLost` used by the sort comparator. -/
def standingDiff (s : Standing) : Int :=
  (s.gamesWon : Int) - (s.gamesLost : Int)

/-- `a` may be placed before `b` by the sort comparator of
`calculateStandings`: more points, or equal points and a game differential
at least as large (`compare(a,b) <= 0` for the JS comparator). -/
def standingGE (a b : Standing) : Prop :=
  b.points < a.points ∨ (a.points = b.points ∧ standingDiff b ≤ standingDiff a)

instance : DecidableRel standingGE := fun a b =>
  decidable_of_iff
    (b.points < a.points ∨ (a.points = b.points ∧ standingDiff b ≤ standingDiff a))
    Iff.rfl

instance : IsTotal Standing standingGE :=
  ⟨fun a b => by unfold standingGE standingDiff; omega⟩

instance : IsTrans Standing standingGE :=
  ⟨fun a b c hab hbc => by unfold standingGE standingDiff at *; omega⟩

/-- `calculateStandings(pool)` from `app.js` lines 910-965: aggregate the
pool's completed matches, then stable-sort descending by points and game
differential (`Array.prototype.sort` is stable, and insertion sort over the
matching total preorder is the stable sort). -/
def calculateStandings (st : TournamentState) (pool : Pool) : List Standing :=
  List.insertionSort standingGE (rawStandings st pool)

/-! ## Knockout seeding and progression -/

/-- `getTeamData(pool, position)` from `updateKnockoutTeams`: read the
standings row at `position - 1`, then look the id up in the pool's team
array (`undefined` when either step fails). -/
def getTeamData (standingsA standingsB : List Standing) (teams : Teams)
    (pool : Pool) (position : Nat) : Option Team :=
  match (match pool with | .A => standingsA | .B => standingsB).get? (position - 1) with
  | some srow => (teams.pool pool).find? fun t => t.id == srow.id
  | none => none

/-- `updateKnockoutTeams` from `app.js` lines 1027-1059: after recomputing
both pools' standings, set semi1's slots to (A rank 1, B rank 2) and
semi2's to (B rank 1, A rank 2). -/
def updateKnockoutTeams (st : TournamentState) : TournamentState :=
  if st.scheduleGenerated = false then st
  else
    let standingsA := calculateStandings st Pool.A
    let standingsB := calculateStandings st Pool.B
    let a1 := getTeamData standingsA standingsB st.teams Pool.A 1
    let b2 := getTeamData standingsA standingsB st.teams Pool.B 2
    let b1 := getTeamData standingsA standingsB st.teams Pool.B 1
    let a2 := getTeamData standingsA standingsB st.teams Pool.A 2
    let km := st.knockoutMatches
    let km :=
      match km.semi1 with
      | some s => { km with semi1 := some { s with team1 := a1, team2 := b2 } }
      | none => km
    let km :=
      match km.semi2 with
      | some s => { km with semi2 := some { s with team1 := b1, team2 := a2 } }
      | none => km
    { st with knockoutMatches := km }

/-- JS truthiness of the `winner` field (a string or `null`): `null` and
`""` are falsy. -/
def truthyStr : Option String → Bool
  | none => false
  | some s => !(s == "")

/-- One semifinal's contribution in `updateKnockoutProgression`: when the
semi is completed with a truthy winner, the final's corresponding side
becomes `winner === team1.id ? team1 : team2` (a TypeError — `none` — when
`team1` is unset); otherwise the side keeps its current value. -/
def progressSide (semi : Option KnockoutMatch) (cur : Option Team) :
    Option (Option Team) :=
  match semi with
  | some s =>
    if s.completed && truthyStr s.winner then
      match s.team1 with
      | none => none
      | some t1 => some (if s.winner = some t1.id then s.team1 else s.team2)
    else some cur
  | none => some cur

/-- `finalMatch.team1 = ...; finalMatch.team2 = ...` slot assignment. -/
def setSlots (f : KnockoutMatch) (t1 t2 : Option Team) : KnockoutMatch :=
  { f with team1 := t1, team2 := t2 }

/-- `match.games = ...` assignment. -/
def setGames (f : KnockoutMatch) (g : List Game) : KnockoutMatch :=
  { f with games := g }

/-- Store a new final into the bracket. -/
def withFinal (km : KnockoutMatches) (f : KnockoutMatch) : KnockoutMatches :=
  { km with final := some f }

/-- `updateKnockoutProgression` from `app.js` lines 1061-1077.  A `null`
final is a TypeError in the source (every path dereferences `finalMatch`),
modelled as `none`.  After moving semifinal winners into the final's slots,
the final's games are created from `pairings` only when both slots are
set and the games list is still empty. -/
def updateKnockoutProgression (km : KnockoutMatches) : Option KnockoutMatches :=
  match km.final with
  | none => none
  | some finalMatch =>
    match progressSide km.semi1 finalMatch.team1,
          progressSide km.semi2 finalMatch.team2 with
    | some t1, some t2 =>
      let fm := setSlots finalMatch t1 t2
      match t1, t2 with
      | some a, some b =>
        if fm.games = [] then some (withFinal km (setGames fm (initKnockoutGames a b)))
        else some (withFinal km fm)
      | _, _ => some (withFinal km fm)
    | _, _ => none

/-! ## Persistence patch layer (`src/db.ts`) -/

/-- `Partial<Match>` from `db.ts`: each field optionally present. -/
structure MatchPatch where
  id : Option String := none
  pool : Option Pool := none
  team1Id : Option String := none
  team2Id : Option String := none
  team1Name : Option String := none
  team2Name : Option String := none
  games : Option (List Game) := none
  team1GamesWon : Option Nat := none
  team2GamesWon : Option Nat := none
  winner : Option (Option String) := none
  completed : Option Bool := none
deriving DecidableEq, Repr

/-- The shallow merge `{ ...old, ...patch }` for a group match. -/
def mergeMatch (m : Match) (p : MatchPatch) : Match :=
  { id := p.id.getD m.id
    pool := p.pool.getD m.pool
    team1Id := p.team1Id.getD m.team1Id
    team2Id := p.team2Id.getD m.team2Id
    team1Name := p.team1Name.getD m.team1Name
    team2Name := p.team2Name.getD m.team2Name
    games := p.games.getD m.games
    team1GamesWon := p.team1GamesWon.getD m.team1GamesWon
    team2GamesWon := p.team2GamesWon.getD m.team2GamesWon
    winner := p.winner.getD m.winner
    completed := p.completed.getD m.completed }

/-- Replace the first match with the given id by its merge with the patch
(`findIndex` + element assignment in `db.ts`); `none` when no id matches. -/
def replaceMatch (matchId : String) (p : MatchPatch) : List Match → Option (List Match)
  | [] => none
  | m :: ms =>
    if m.id == matchId then some (mergeMatch m p :: ms)
    else (replaceMatch matchId p ms).map fun rest => m :: rest

/-- `updateMatch(matchId, matchData)` from `db.ts` lines 80-90 (the pure
state transformation; serialisation through SQLite is the identity on the
state record). -/
def updateMatch (st : TournamentState) (matchId : String) (matchData : MatchPatch) :
    Except String TournamentState :=
  match replaceMatch matchId matchData st.matches' with
  | none => .error ("Match " ++ matchId ++ " not found")
  | some ms => .ok { st with matches' := ms }

/-- The knockout-bracket keys accepted by `updateKnockoutMatch`. -/
inductive KnockoutKey where
  | semi1
  | semi2
  | final
deriving DecidableEq, Repr

/-- `state.knockoutMatches[matchKey]` read. -/
def KnockoutMatches.get (km : KnockoutMatches) : KnockoutKey → Option KnockoutMatch
  | .semi1 => km.semi1
  | .semi2 => km.semi2
  | .final => km.final

/-- `state.knockoutMatches[matchKey]` write. -/
def KnockoutMatches.set (km : KnockoutMatches) :
    KnockoutKey → Option KnockoutMatch → KnockoutMatches
  | .semi1, v => { km with semi1 := v }
  | .semi2, v => { km with semi2 := v }
  | .final, v => { km with final := v }

/-- `Partial<KnockoutMatch>` from `db.ts`. -/
structure KnockoutPatch where
  id : Option String := none
  seed1 : Option String := none
  seed2 : Option String := none
  team1 : Option (Option Team) := none
  team2 : Option (Option Team) := none
  games : Option (List Game) := none
  team1GamesWon : Option Nat := none
  team2GamesWon : Option Nat := none
  winner : Option (Option String) := none
  completed : Option Bool := none
deriving DecidableEq, Repr

/-- The shallow merge `{ ...old, ...patch }` for a knockout match. -/
def mergeKnockoutMatch (k : KnockoutMatch) (p : KnockoutPatch) : KnockoutMatch :=
  { id := p.id.getD k.id
    seed1 := p.seed1.getD k.seed1
    seed2 := p.seed2.getD k.seed2
    team1 := p.team1.getD k.team1
    team2 := p.team2.getD k.team2
    games := p.games.getD k.games
    team1GamesWon := p.team1GamesWon.getD k.team1GamesWon
    team2GamesWon := p.team2GamesWon.getD k.team2GamesWon
    winner := p.winner.getD k.winner
    completed := p.completed.getD k.completed }

/-- `updateKnockoutMatch(matchKey, matchData)` from `db.ts` lines 93-102:
fails when the keyed slot holds `null`, else shallow-merges the patch. -/
def updateKnockoutMatch (st : TournamentState) (matchKey : KnockoutKey)
    (matchData : KnockoutPatch) : Except String TournamentState :=
  match st.knockoutMatches.get matchKey with
  | none => .error "Knockout match not found"
  | some k =>
    .ok { st with
      knockoutMatches :=
        st.knockoutMatches.set matchKey (some (mergeKnockoutMatch k matchData)) }

/-! ## Specification-side descriptions (for refinement claims)

These definitions follow the wording of the specification (§4.1), to be
compared with the generator embedded from the source. -/

/-- Spec §4.1: the fixed player-index pairings (0,1), (0,2), (1,2). -/
def specIndexPairs : List (Nat × Nat) := [(0, 1), (0, 2), (1, 2)]

/-- Spec §4.1: game `k` of a match uses index-pairing `k` applied
identically to both sides, with blank scores and no winner. -/
def specGroupMatch (pool : Pool) (t1 t2 : Team) : Match :=
  { id := pool.str ++ "-" ++ t1.id ++ "-" ++ t2.id
    pool := pool
    team1Id := t1.id
    team2Id := t2.id
    team1Name := t1.name
    team2Name := t2.name
    games := specIndexPairs.mapIdx fun k pr =>
      { id := k
        team1Players := [t1.players.getD pr.1 "", t1.players.getD pr.2 ""]
        team2Players := [t2.players.getD pr.1 "", t2.players.getD pr.2 ""]
        team1Score := none
        team2Score := none
        winner := none }
    team1GamesWon := 0
    team2GamesWon := 0
    winner := none
    completed := false }

/-- Spec §4.1: a freshly-built knockout match — seeds only, unresolved
teams, empty games, zero won-counts, unset winner, not completed. -/
def specFreshKnockout (id seed1 seed2 : String) : KnockoutMatch :=
  ⟨id, seed1, seed2, none, none, [], 0, 0, none, false⟩

/-- Spec §4.1: the freshly-built bracket — semi1 "A1" vs "B2", semi2 "B1"
vs "A2", final "W1" vs "W2". -/
def specFreshBracket : KnockoutMatches :=
  { semi1 := some (specFreshKnockout "semi1" "A1" "B2")
    semi2 := some (specFreshKnockout "semi2" "B1" "A2")
    final := some (specFreshKnockout "final" "W1" "W2") }

/-- `m.team1Id == tid || m.team2Id == tid`: the match involves team `tid`. -/
def involves (tid : String) (m : Match) : Bool :=
  m.team1Id == tid || m.team2Id == tid

/-! ## Concrete states used by witnesses and counterexamples -/

def tA1 : Team := ⟨"A1", "Aces", ["pa1", "pa2", "pa3"]⟩

def tA2 : Team := ⟨"A2", "Birds", ["pb1", "pb2", "pb3"]⟩

def tA3 : Team := ⟨"A3", "Crows", ["pc1", "pc2", "pc3"]⟩

def tB1 : Team := ⟨"B1", "Drakes", ["pd1", "pd2", "pd3"]⟩

def tB2 : Team := ⟨"B2", "Eagles", ["pe1", "pe2", "pe3"]⟩

def tB3 : Team := ⟨"B3", "Falcons", ["pf1", "pf2", "pf3"]⟩

/-- A fully set-up pre-generation state. -/
def demoState : TournamentState :=
  ⟨⟨[tA1, tA2, tA3], [tB1, tB2, tB3]⟩, [], ⟨none, none, none⟩, false⟩

/-- The state produced by a successful `generateSchedule demoState`. -/
def demoGenerated : TournamentState :=
  match generateSchedule demoState with
  | .success s => s
  | _ => demoState

/-- A completed pool-A match (A1 beat A2 by 2 games to 1); `calculateStandings`
reads only the counters and flags, so the games list may be empty here. -/
def demoDoneMatch : Match :=
  ⟨"A-A1-A2", .A, "A1", "A2", "Aces", "Birds", [], 2, 1, some "A1", true⟩

/-- A post-generation state with exactly one completed match. -/
def demoStandState : TournamentState :=
  ⟨⟨[tA1, tA2, tA3], [tB1, tB2, tB3]⟩, [demoDoneMatch], ⟨none, none, none⟩, true⟩

/-- Setup state with one blank team name (validation must fail). -/
def badState : TournamentState :=
  ⟨⟨[{ tA1 with name := "" }, tA2, tA3], [tB1, tB2, tB3]⟩, [], ⟨none, none, none⟩, false⟩

/-- A decided game (21-0 for side 1) whose winner field is set. -/
def cexGame : Game :=
  ⟨0, ["x", "y"], ["u", "v"], some 21, some 0, some Side.team1⟩

/-- A completed one-game match with a recorded winner. -/
def cexMatch1 : Match :=
  ⟨"M1", .A, "A1", "A2", "Aces", "Birds", [cexGame], 1, 0, some "A1", true⟩

/-- A two-game match with a recorded winner (structurally representable:
the state shape does not force three games per match). -/
def cexMatch2 : Match :=
  ⟨"M2", .A, "A1", "A2", "Aces", "Birds", [cexGame, { cexGame with id := 1 }],
   2, 0, some "A1", true⟩

/-- A completed semifinal 1 won by team A1. -/
def demoSemi1Done : KnockoutMatch :=
  ⟨"semi1", "A1", "B2", some tA1, some tB2, [], 2, 1, some "A1", true⟩

def demoSemi2Fresh : KnockoutMatch := createKnockoutMatch "semi2" "B1" "A2"

def demoFinalFresh : KnockoutMatch := createKnockoutMatch "final" "W1" "W2"

/-- Bracket with semi1 decided, semi2 pending, fresh final. -/
def demoKm : KnockoutMatches :=
  ⟨some demoSemi1Done, some demoSemi2Fresh, some demoFinalFresh⟩

/-- The bracket produced by `updateKnockoutProgression demoKm`. -/
def demoKmRes : KnockoutMatches :=
  match updateKnockoutProgression demoKm with
  | some k => k
  | none => demoKm

/-- The final inside `demoKmRes`. -/
def demoFinRes : KnockoutMatch :=
  match demoKmRes.final with
  | some f => f
  | none => createKnockoutMatch "" "" ""

/-- A match used to exercise `saveScore` in the C3 witness. -/
def demoMW : Match :=
  ⟨"W", .A, "A1", "A2", "Aces", "Birds",
   [⟨0, ["a", "b"], ["c", "d"], none, none, none⟩,
    ⟨1, ["a", "e"], ["c", "f"], none, none, none⟩,
    ⟨2, ["b", "e"], ["d", "f"], none, none, none⟩], 0, 0, none, false⟩

/-- Score inputs: side 1 takes all three games. -/
def demoInputsW : List (Option Int × Option Int) :=
  [(some 21, some 5), (some 21, some 19), (some 30, some 29)]

/-- Patch used by the C10 witness. -/
def patchW : MatchPatch := { completed := some false }

/-! ## Derived predicates and proof-side definitions -/

/-- The precondition violations of `generateSchedule` as stated by the
spec: a blank team name, a blank player slot, or a duplicated player name
across the eighteen player slots. -/
def validationBad (st : TournamentState) : Prop :=
  (∃ t ∈ st.teams.A ++ st.teams.B, isBlank t.name = true) ∨
  (∃ t ∈ st.teams.A ++ st.teams.B, ∃ p ∈ t.players, isBlank p = true) ∨
  ¬((st.teams.A ++ st.teams.B).flatMap fun t => t.players).Nodup

/-- The predicate "this game has both scores entered and `side` as winner". -/
def decidedFor (side : Side) (g : Game) : Bool :=
  g.team1Score.isSome && g.team2Score.isSome && g.winner == some side

/-- Pointwise form of one `applyMatch` step as it acts on a single
standings row (used to reason about the standings fold): skip when the
match is incomplete, apply the side's delta when the row's id matches. -/
def matchEffect (m : Match) (s : Standing) : Standing :=
  if m.completed = false then s
  else if s.id = m.team1Id then team1Delta m s
  else if s.id = m.team2Id then team2Delta m s
  else s

/-! ## Helper lemmas about `isGameWinner` -/

/-- Unfolding of the badminton win rule into a linear-arithmetic form. -/
theorem isGameWinner_eq_true_iff (s1 s2 : Int) :
    isGameWinner s1 s2 = true ↔
      (s2 < s1 ∧ (s1 = 30 ∨ (21 ≤ s1 ∧ s2 < 20) ∨
        (21 ≤ s1 ∧ 20 ≤ s2 ∧ 2 ≤ s1 - s2))) := by
  unfold isGameWinner
  split_ifs <;> simp_all <;> omega

/-!  ## Claims C2 and C9: the game-winner rule  -/

/-- C2: for all integer scores `s1, s2` in `[0,30]`, `isGameWinner s1 s2`
is true iff `s1 > s2` and (`s1 = 30`, or `s1 ≥ 21` with `s2 < 20`, or
`s1 ≥ 21` with `s2 ≥ 20` and a lead of at least 2); in particular
`isGameWinner` on (21,19), (21,20), (22,20), (20,20) is
true/false/true/false respectively. -/
theorem C2_isGameWinner_rule :
    (∀ s1 s2 : Int, 0 ≤ s1 → s1 ≤ 30 → 0 ≤ s2 → s2 ≤ 30 →
      (isGameWinner s1 s2 = true ↔
        (s1 > s2 ∧ (s1 = 30 ∨ (21 ≤ s1 ∧ s2 < 20) ∨
          (21 ≤ s1 ∧ 20 ≤ s2 ∧ s1 - s2 ≥ 2))))) ∧
    isGameWinner 21 19 = true ∧ isGameWinner 21 20 = false ∧
    isGameWinner 22 20 = true ∧ isGameWinner 20 20 = false := by
  refine ⟨fun s1 s2 _ _ _ _ => ?_, by decide, by decide, by decide, by decide⟩
  rw [isGameWinner_eq_true_iff]

/-- Witness for C2 at the concrete input (30, 0). -/
theorem C2_witness : isGameWinner 30 0 = true :=
  (C2_isGameWinner_rule.1 30 0 (by decide) (by decide) (by decide) (by decide)).mpr
    (by decide)

/-- C9: for all score pairs in `[0,30]²`, the two sides can never both
satisfy the win rule. -/
theorem C9_mutual_exclusion (s1 s2 : Int)
    (h1 : 0 ≤ s1) (h2 : s1 ≤ 30) (h3 : 0 ≤ s2) (h4 : s2 ≤ 30) :
    ¬(isGameWinner s1 s2 = true ∧ isGameWinner s2 s1 = true) := by
  rw [isGameWinner_eq_true_iff, isGameWinner_eq_true_iff]
  omega

/-- Witness for C9 at the concrete input (21, 19). -/
theorem C9_witness : ¬(isGameWinner 21 19 = true ∧ isGameWinner 19 21 = true) :=
  C9_mutual_exclusion 21 19 (by decide) (by decide) (by decide) (by decide)

/-! ## Claims C4 and C5: schedule generation -/

/-- `generatePoolMatches` on a three-team pool: the three fixed matchups. -/
theorem generatePoolMatches_three (pool : Pool) (x y z : Team) :
    generatePoolMatches pool [x, y, z] =
      some [mkGroupMatch pool x y, mkGroupMatch pool x z, mkGroupMatch pool y z] := rfl

/-- The source-built group match coincides with the spec description. -/
theorem mkGroupMatch_eq_spec (pool : Pool) (t1 t2 : Team) :
    mkGroupMatch pool t1 t2 = specGroupMatch pool t1 t2 := rfl

/-- `findSome? teamError` finds nothing iff every team validates. -/
theorem findSome_teamError_none {l : List Team} :
    l.findSome? teamError = none ↔ ∀ t ∈ l, teamError t = none := by
  induction l with
  | nil => simp
  | cons x xs ih => cases hx : teamError x <;> simp [hx, ih]

/-- `teamError` is `none` iff the name and all player slots are non-blank. -/
theorem teamError_eq_none (t : Team) :
    teamError t = none ↔
      (isBlank t.name = false ∧ ∀ p ∈ t.players, isBlank p = false) := by
  unfold teamError
  split_ifs with h1 h2 <;> simp_all

/-- C5: with the app's 3-team pools, schedule generation fails with a
user-facing validation error and an unchanged state exactly on the spec's
precondition violations; otherwise it succeeds and builds the whole
schedule (6 matches, fresh bracket, flag set, teams untouched). -/
theorem C5_generateSchedule_validation (st : TournamentState)
    (hA : st.teams.A.length = 3) (hB : st.teams.B.length = 3) :
    (validationBad st → ∃ msg, generateSchedule st = .failure msg st) ∧
    (¬validationBad st → ∃ st2, generateSchedule st = .success st2 ∧
      st2.teams = st.teams ∧ st2.scheduleGenerated = true ∧
      st2.matches'.length = 6 ∧ st2.knockoutMatches = specFreshBracket) := by
  obtain ⟨a0, a1, a2, hA3⟩ := List.length_eq_three.mp hA
  obtain ⟨b0, b1, b2, hB3⟩ := List.length_eq_three.mp hB
  constructor
  · intro hbad
    cases hfs : (st.teams.A ++ st.teams.B).findSome? teamError with
    | some msg =>
      refine ⟨msg, ?_⟩
      unfold generateSchedule
      rw [hfs]
    | none =>
      have hall := findSome_teamError_none.mp hfs
      have hdup : ¬((st.teams.A ++ st.teams.B).flatMap fun t => t.players).Nodup := by
        rcases hbad with h | h | h
        · obtain ⟨t, ht, hblank⟩ := h
          have := ((teamError_eq_none t).mp (hall t ht)).1
          simp_all
        · obtain ⟨t, ht, p, hp, hblank⟩ := h
          have := ((teamError_eq_none t).mp (hall t ht)).2 p hp
          simp_all
        · exact h
      refine ⟨"Each player can only be on one team", ?_⟩
      unfold generateSchedule
      rw [hfs]
      simp only [if_neg hdup]
  · intro hgood
    have h1 : ¬∃ t ∈ st.teams.A ++ st.teams.B, isBlank t.name = true :=
      fun hx => hgood (Or.inl hx)
    have h2 : ¬∃ t ∈ st.teams.A ++ st.teams.B, ∃ p ∈ t.players, isBlank p = true :=
      fun hx => hgood (Or.inr (Or.inl hx))
    have hnd : ((st.teams.A ++ st.teams.B).flatMap fun t => t.players).Nodup :=
      of_not_not fun hx => hgood (Or.inr (Or.inr hx))
    have hfs : (st.teams.A ++ st.teams.B).findSome? teamError = none := by
      rw [findSome_teamError_none]
      intro t ht
      rw [teamError_eq_none]
      refine ⟨?_, ?_⟩
      · cases hb : isBlank t.name with
        | false => rfl
        | true => exact absurd ⟨t, ht, hb⟩ h1
      · intro p hp
        cases hb : isBlank p with
        | false => rfl
        | true => exact absurd ⟨t, ht, p, hp, hb⟩ h2
    refine ⟨{ st with
        matches' :=
          [mkGroupMatch .A a0 a1, mkGroupMatch .A a0 a2, mkGroupMatch .A a1 a2] ++
          [mkGroupMatch .B b0 b1, mkGroupMatch .B b0 b2, mkGroupMatch .B b1 b2]
        knockoutMatches :=
          { semi1 := some (createKnockoutMatch "semi1" "A1" "B2")
            semi2 := some (createKnockoutMatch "semi2" "B1" "A2")
            final := some (createKnockoutMatch "final" "W1" "W2") }
        scheduleGenerated := true }, ?_, rfl, rfl, rfl, rfl⟩
    unfold generateSchedule
    rw [hfs]
    rw [hA3, hB3] at hnd
    simp only [hA3, hB3, generatePoolMatches_three, if_pos hnd]

/-- Witness for C5: a blank team name produces a validation failure with
the state unchanged. -/
theorem C5_witness : ∃ msg, generateSchedule badState = .failure msg badState :=
  (C5_generateSchedule_validation badState rfl rfl).1 (by unfold validationBad; decide)

/-- C4: a successful schedule generation over pools `[a0,a1,a2]` and
`[b0,b1,b2]` yields exactly the six spec-described group matches in the
fixed order (pairs (0,1),(0,2),(1,2) per pool, three games per match with
index-pairings (0,1),(0,2),(1,2) applied identically to both sides), the
spec-described fresh knockout bracket, and a set `scheduleGenerated`. -/
theorem C4_generateSchedule_success (st stS : TournamentState)
    (a0 a1 a2 b0 b1 b2 : Team)
    (hA : st.teams.A = [a0, a1, a2]) (hB : st.teams.B = [b0, b1, b2])
    (h : generateSchedule st = .success stS) :
    stS.matches' =
      [specGroupMatch .A a0 a1, specGroupMatch .A a0 a2, specGroupMatch .A a1 a2,
       specGroupMatch .B b0 b1, specGroupMatch .B b0 b2, specGroupMatch .B b1 b2] ∧
    stS.knockoutMatches = specFreshBracket ∧
    stS.scheduleGenerated = true := by
  unfold generateSchedule at h
  rw [hA, hB] at h
  cases hfs : (([a0, a1, a2] ++ [b0, b1, b2]).findSome? teamError) with
  | some msg => rw [hfs] at h; simp at h
  | none =>
    rw [hfs] at h
    simp only [generatePoolMatches_three] at h
    by_cases hnd : (([a0, a1, a2] ++ [b0, b1, b2]).flatMap fun t => t.players).Nodup
    · rw [if_pos hnd] at h
      cases h
      exact ⟨rfl, rfl, rfl⟩
    · rw [if_neg hnd] at h
      simp at h

/-- Witness for C4: the demo state generates successfully and the result
carries the set flag. -/
theorem C4_witness : demoGenerated.scheduleGenerated = true :=
  (C4_generateSchedule_success demoState demoGenerated tA1 tA2 tA3 tB1 tB2 tB3
    rfl rfl (by decide)).2.2

/-! ## Claim C3: `saveScore` -/

/-- The `forEach` loop of `saveScore`: win counters count exactly the
output games with both scores present and the matching winner; the
`allGamesScored` flag is true iff every output game has both scores
present and a decided winner. -/
theorem scoreGames_spec (l : List (Game × (Option Int × Option Int))) :
    (scoreGames l).2.1 = (scoreGames l).1.countP (decidedFor Side.team1) ∧
    (scoreGames l).2.2.1 = (scoreGames l).1.countP (decidedFor Side.team2) ∧
    ((scoreGames l).2.2.2 = true ↔
      ∀ g ∈ (scoreGames l).1,
        g.team1Score.isSome = true ∧ g.team2Score.isSome = true ∧
        g.winner.isSome = true) := by
  induction l with
  | nil => simp [scoreGames]
  | cons hd tl ih =>
    obtain ⟨g, in1, in2⟩ := hd
    rcases htl : scoreGames tl with ⟨gs, w1, w2, all⟩
    rw [htl] at ih
    simp only at ih
    cases in1 with
    | none =>
      simp only [scoreGames, htl]
      simp_all [List.countP_cons, decidedFor]
    | some s1 =>
      cases in2 with
      | none =>
        simp only [scoreGames, htl]
        simp_all [List.countP_cons, decidedFor]
      | some s2 =>
        by_cases hw1 : isGameWinner s1 s2 <;> by_cases hw2 : isGameWinner s2 s1 <;>
          simp only [scoreGames, htl, hw1, hw2, if_true, if_false] <;>
          simp_all [List.countP_cons, decidedFor]

/-- C3 (amended): for every match produced by `saveScore`, each side's
games-won count equals the number of output games with both scores entered
and that side as winner; `completed` is true exactly when every output game
has both scores entered and a decided winner (a game whose score pair is
incomplete retains its previous `winner` field but is not counted); and if
completed, a strictly greater count sets the match winner to that side's id
while equal counts leave the `winner` field unchanged from its previous
value. -/
theorem C3_saveScore_amended (m : Match) (inputs : List (Option Int × Option Int))
    (hlen : inputs.length = m.games.length) :
    (saveScore m inputs).team1GamesWon =
      (saveScore m inputs).games.countP (decidedFor Side.team1) ∧
    (saveScore m inputs).team2GamesWon =
      (saveScore m inputs).games.countP (decidedFor Side.team2) ∧
    ((saveScore m inputs).completed = true ↔
      ∀ g ∈ (saveScore m inputs).games,
        g.team1Score.isSome = true ∧ g.team2Score.isSome = true ∧
        g.winner.isSome = true) ∧
    ((saveScore m inputs).completed = true →
      ((saveScore m inputs).team1GamesWon > (saveScore m inputs).team2GamesWon →
        (saveScore m inputs).winner = some m.team1Id) ∧
      ((saveScore m inputs).team2GamesWon > (saveScore m inputs).team1GamesWon →
        (saveScore m inputs).winner = some m.team2Id) ∧
      ((saveScore m inputs).team1GamesWon = (saveScore m inputs).team2GamesWon →
        (saveScore m inputs).winner = m.winner)) := by
  have h := scoreGames_spec (m.games.zip inputs)
  rcases hsg : scoreGames (m.games.zip inputs) with ⟨gs, w1, w2, all⟩
  rw [hsg] at h
  simp only at h
  simp only [saveScore, hsg]
  refine ⟨h.1, h.2.1, h.2.2, ?_⟩
  intro hall
  simp only [hall, if_true]
  refine ⟨?_, ?_, ?_⟩
  · intro hgt
    rw [if_pos hgt]
  · intro hgt
    rw [if_neg (by omega), if_pos hgt]
  · intro heq
    rw [if_neg (by omega), if_neg (by omega)]

/-- Counterexample to C3 as stated: (a) clearing one score of a previously
decided game leaves a stale `winner` on that game, so the games-won count
(0) differs from the number of games the side won (1) and `completed` is
false although every game has a decided winner; (b) on a structurally
representable two-game match, equal games-won counts leave the previous
match winner in place rather than unsetting it. -/
theorem C3_counterexample :
    (¬((saveScore cexMatch1 [(none, some 0)]).team1GamesWon =
        (saveScore cexMatch1 [(none, some 0)]).games.countP
          (fun g => g.winner == some Side.team1))) ∧
    (¬(((saveScore cexMatch1 [(none, some 0)]).completed = true) ↔
        ∀ g ∈ (saveScore cexMatch1 [(none, some 0)]).games,
          g.winner.isSome = true)) ∧
    ((saveScore cexMatch2 [(some 21, some 0), (some 0, some 21)]).completed = true ∧
     (saveScore cexMatch2 [(some 21, some 0), (some 0, some 21)]).team1GamesWon =
       (saveScore cexMatch2 [(some 21, some 0), (some 0, some 21)]).team2GamesWon ∧
     (saveScore cexMatch2 [(some 21, some 0), (some 0, some 21)]).winner ≠ none) := by
  decide

/-- Witness for C3 at a concrete three-game match. -/
theorem C3_witness :
    (saveScore demoMW demoInputsW).team1GamesWon =
      (saveScore demoMW demoInputsW).games.countP (decidedFor Side.team1) :=
  (C3_saveScore_amended demoMW demoInputsW (by decide)).1

/-! ## Standings infrastructure (towards C6 and C7) -/

theorem team1Delta_id (m : Match) (s : Standing) : (team1Delta m s).id = s.id := by
  unfold team1Delta
  split_ifs <;> rfl

theorem team2Delta_id (m : Match) (s : Standing) : (team2Delta m s).id = s.id := by
  unfold team2Delta
  split_ifs <;> rfl

theorem matchEffect_id (m : Match) (s : Standing) : (matchEffect m s).id = s.id := by
  unfold matchEffect
  split_ifs <;> simp [team1Delta_id, team2Delta_id]

theorem team1Delta_name (m : Match) (s : Standing) : (team1Delta m s).name = s.name := by
  unfold team1Delta
  split_ifs <;> rfl

theorem team2Delta_name (m : Match) (s : Standing) : (team2Delta m s).name = s.name := by
  unfold team2Delta
  split_ifs <;> rfl

theorem matchEffect_name (m : Match) (s : Standing) :
    (matchEffect m s).name = s.name := by
  unfold matchEffect
  split_ifs <;> simp [team1Delta_name, team2Delta_name]

/-- A map whose function is the identity on every member is the identity. -/
theorem map_eq_self_of {α : Type} (l : List α) (f : α → α)
    (h : ∀ x ∈ l, f x = x) : l.map f = l := by
  induction l with
  | nil => rfl
  | cons x xs ih =>
    simp only [List.map_cons, h x (by simp)]
    rw [ih fun y hy => h y (by simp [hy])]

/-- A `find?` by id succeeds whenever the id occurs among the rows. -/
theorem find?_id_isSome {sts : List Standing} {tid : String}
    (h : tid ∈ sts.map fun s => s.id) :
    (sts.find? fun s => s.id == tid).isSome = true := by
  induction sts with
  | nil => simp at h
  | cons x xs ih =>
    simp only [List.map_cons, List.mem_cons] at h
    rw [List.find?_cons]
    by_cases hx : (x.id == tid) = true
    · simp [hx]
    · have : tid ∈ xs.map fun s => s.id := by
        rcases h with h | h
        · exact absurd (by simp [h]) hx
        · exact h
      simp [hx, ih this]

/-- With pairwise-distinct ids, mutating the first row matching an id is
the same as mapping a guarded update over all rows. -/
theorem modifyFirst_eq_map (f : Standing → Standing)
    (hf : ∀ s, (f s).id = s.id) (tid : String) :
    ∀ l : List Standing, (l.map fun s => s.id).Nodup →
      modifyFirst (fun s => s.id == tid) f l =
        l.map fun s => if s.id = tid then f s else s := by
  intro l
  induction l with
  | nil => intro _; rfl
  | cons x xs ih =>
    intro hnd
    simp only [List.map_cons, List.nodup_cons] at hnd
    obtain ⟨hx, hnd'⟩ := hnd
    by_cases hxid : x.id = tid
    · unfold modifyFirst
      rw [if_pos (by simp [hxid]), List.map_cons, if_pos hxid]
      have hnone : ∀ s ∈ xs, (if s.id = tid then f s else s) = s := by
        intro s hs
        rw [if_neg]
        intro hseq
        exact hx (by rw [hxid, ← hseq]; exact List.mem_map_of_mem _ hs)
      rw [map_eq_self_of xs _ hnone]
    · unfold modifyFirst
      rw [if_neg (by simp [hxid]), List.map_cons, if_neg hxid, ih hnd']

/-- Functions preserving `id` preserve the id list under `modifyFirst`. -/
theorem modifyFirst_map_id (p : Standing → Bool) (f : Standing → Standing)
    (hf : ∀ s, (f s).id = s.id) :
    ∀ l : List Standing,
      ((modifyFirst p f l).map fun s => s.id) = l.map fun s => s.id := by
  intro l
  induction l with
  | nil => rfl
  | cons x xs ih =>
    unfold modifyFirst
    by_cases hx : p x = true
    · rw [if_pos hx]
      simp [hf]
    · rw [if_neg hx]
      simp [ih]

/-- `applyMatch` never changes the id column. -/
theorem applyMatch_map_id (m : Match) (sts : List Standing) :
    ((applyMatch m sts).map fun s => s.id) = sts.map fun s => s.id := by
  unfold applyMatch
  split_ifs <;>
    simp [modifyFirst_map_id _ _ (team1Delta_id m), modifyFirst_map_id _ _ (team2Delta_id m)]

/-- The standings fold never changes the id column. -/
theorem foldl_applyMatch_map_id (ms : List Match) :
    ∀ sts : List Standing,
      ((ms.foldl (fun acc m => applyMatch m acc) sts).map fun s => s.id) =
        sts.map fun s => s.id := by
  induction ms with
  | nil => intro sts; rfl
  | cons m ms ih =>
    intro sts
    rw [List.foldl_cons, ih, applyMatch_map_id]

/-- The id column of the zero-initialised standings is the team-id column. -/
theorem initStandings_ids (teams : List Team) :
    ((initStandings teams).map fun s => s.id) = teams.map fun t => t.id := by
  unfold initStandings
  rw [List.map_map]
  rfl

/-- The id column of the aggregated standings is the pool's team-id column,
in pool order. -/
theorem rawStandings_ids (st : TournamentState) (pool : Pool) :
    ((rawStandings st pool).map fun s => s.id) =
      (st.teams.pool pool).map fun t => t.id := by
  unfold rawStandings
  rw [foldl_applyMatch_map_id, initStandings_ids]

/-- With distinct ids and both team ids present, one `applyMatch` step is
the pointwise `matchEffect` map. -/
theorem applyMatch_eq_map (m : Match) (sts : List Standing)
    (hnd : (sts.map fun s => s.id).Nodup)
    (h1 : m.team1Id ∈ sts.map fun s => s.id)
    (h2 : m.team2Id ∈ sts.map fun s => s.id)
    (hne : m.team1Id ≠ m.team2Id) :
    applyMatch m sts = sts.map (matchEffect m) := by
  by_cases hc : m.completed = false
  · unfold applyMatch
    rw [if_pos hc]
    refine (map_eq_self_of sts _ fun s _ => ?_).symm
    unfold matchEffect
    rw [if_pos hc]
  · unfold applyMatch
    rw [if_neg hc, if_pos ⟨find?_id_isSome h1, find?_id_isSome h2⟩]
    rw [modifyFirst_eq_map (team1Delta m) (team1Delta_id m) m.team1Id sts hnd]
    have hnd2 : ((sts.map fun s => if s.id = m.team1Id then team1Delta m s else s).map
        fun s => s.id).Nodup := by
      rw [List.map_map]
      have : ((fun s => s.id) ∘ fun s => if s.id = m.team1Id then team1Delta m s else s) =
          fun s : Standing => s.id := by
        funext s
        by_cases hs : s.id = m.team1Id <;> simp [hs, team1Delta_id]
      rw [this]
      exact hnd
    rw [modifyFirst_eq_map (team2Delta m) (team2Delta_id m) m.team2Id _ hnd2]
    rw [List.map_map]
    apply List.map_congr_left
    intro s _
    simp only [Function.comp_apply]
    unfold matchEffect
    rw [if_neg hc]
    by_cases hs1 : s.id = m.team1Id
    · simp [hs1, team1Delta_id, hne]
    · by_cases hs2 : s.id = m.team2Id <;> simp [hs1, hs2, Ne.symm hne]

/-- Field-level description of a single `matchEffect` step. -/
theorem matchEffect_spec (m : Match) (s : Standing)
    (hne : m.team1Id ≠ m.team2Id)
    (hwf : m.winner = none ∨ m.winner = some m.team1Id ∨ m.winner = some m.team2Id) :
    (matchEffect m s).played =
      s.played + (if m.completed && involves s.id m then 1 else 0) ∧
    (matchEffect m s).gamesWon =
      s.gamesWon + (if m.completed && involves s.id m then
        (if m.team1Id = s.id then m.team1GamesWon else m.team2GamesWon) else 0) ∧
    (matchEffect m s).gamesLost =
      s.gamesLost + (if m.completed && involves s.id m then
        (if m.team1Id = s.id then m.team2GamesWon else m.team1GamesWon) else 0) ∧
    (matchEffect m s).matchesWon =
      s.matchesWon + (if m.completed && involves s.id m &&
        (m.winner == some s.id) then 1 else 0) ∧
    (matchEffect m s).matchesLost =
      s.matchesLost + (if m.completed && involves s.id m &&
        (m.winner.isSome && !(m.winner == some s.id)) then 1 else 0) ∧
    (matchEffect m s).points =
      s.points + (if m.completed && involves s.id m then
        (if m.winner == some s.id then 2 else if m.winner == none then 1 else 0)
        else 0) := by
  by_cases hc : m.completed = false
  · have heff : matchEffect m s = s := by
      unfold matchEffect
      rw [if_pos hc]
    simp [heff, hc]
  · have hct : m.completed = true := by
      cases hcc : m.completed
      · exact absurd hcc hc
      · rfl
    by_cases hs1 : s.id = m.team1Id
    · have heff : matchEffect m s = team1Delta m s := by
        unfold matchEffect
        rw [if_neg hc, if_pos hs1]
      have hinv : involves s.id m = true := by
        simp [involves, hs1.symm]
      have hne2 : ¬m.team2Id = s.id := fun h => hne (hs1.symm.trans h.symm)
      rcases hwf with hw | hw | hw <;>
        simp [heff, team1Delta, hinv, hct, hw, hs1.symm, Ne.symm hne, hne2] <;>
        omega
    · by_cases hs2 : s.id = m.team2Id
      · have heff : matchEffect m s = team2Delta m s := by
          unfold matchEffect
          rw [if_neg hc, if_neg hs1, if_pos hs2]
        have hinv : involves s.id m = true := by
          simp [involves, hs2.symm]
        have hne1 : ¬m.team1Id = s.id := fun h => hs1 h.symm
        rcases hwf with hw | hw | hw <;>
          simp [heff, team2Delta, hinv, hct, hw, hs2.symm, hne, Ne.symm hne, hne1,
            hs1] <;>
          omega
      · have heff : matchEffect m s = s := by
          unfold matchEffect
          rw [if_neg hc, if_neg hs1, if_neg hs2]
        have hinv : involves s.id m = false := by
          unfold involves
          simp only [Bool.or_eq_false_iff, beq_eq_false_iff_ne, ne_eq]
          exact ⟨fun h => hs1 h.symm, fun h => hs2 h.symm⟩
        simp [heff, hinv]

/-- Closed form for the per-row standings fold: each field is the initial
value plus its aggregate over the completed matches involving the row. -/
theorem foldl_matchEffect_spec (ms : List Match) :
    ∀ s : Standing,
      (∀ m ∈ ms, m.team1Id ≠ m.team2Id) →
      (∀ m ∈ ms, m.winner = none ∨ m.winner = some m.team1Id ∨
        m.winner = some m.team2Id) →
      (ms.foldl (fun s m => matchEffect m s) s).id = s.id ∧
      (ms.foldl (fun s m => matchEffect m s) s).name = s.name ∧
      (ms.foldl (fun s m => matchEffect m s) s).played =
        s.played + (ms.filter fun m => m.completed && involves s.id m).length ∧
      (ms.foldl (fun s m => matchEffect m s) s).gamesWon =
        s.gamesWon + (((ms.filter fun m => m.completed && involves s.id m).map
          fun m => if m.team1Id = s.id then m.team1GamesWon else m.team2GamesWon).sum) ∧
      (ms.foldl (fun s m => matchEffect m s) s).gamesLost =
        s.gamesLost + (((ms.filter fun m => m.completed && involves s.id m).map
          fun m => if m.team1Id = s.id then m.team2GamesWon else m.team1GamesWon).sum) ∧
      (ms.foldl (fun s m => matchEffect m s) s).matchesWon =
        s.matchesWon + ((ms.filter fun m => m.completed && involves s.id m).countP
          fun m => m.winner == some s.id) ∧
      (ms.foldl (fun s m => matchEffect m s) s).matchesLost =
        s.matchesLost + ((ms.filter fun m => m.completed && involves s.id m).countP
          fun m => m.winner.isSome && !(m.winner == some s.id)) ∧
      (ms.foldl (fun s m => matchEffect m s) s).points =
        s.points + 2 * ((ms.filter fun m => m.completed && involves s.id m).countP
          fun m => m.winner == some s.id) +
        ((ms.filter fun m => m.completed && involves s.id m).countP
          fun m => m.winner == none) := by
  induction ms with
  | nil =>
    intro s _ _
    simp
  | cons m ms ih =>
    intro s hne hwf
    obtain ⟨e_p, e_gw, e_gl, e_mw, e_ml, e_pts⟩ :=
      matchEffect_spec m s (hne m (by simp)) (hwf m (by simp))
    have ihs := ih (matchEffect m s)
      (fun x hx => hne x (List.mem_cons_of_mem _ hx))
      (fun x hx => hwf x (List.mem_cons_of_mem _ hx))
    simp only [matchEffect_id] at ihs
    obtain ⟨i_id, i_name, i_p, i_gw, i_gl, i_mw, i_ml, i_pts⟩ := ihs
    rw [List.foldl_cons]
    by_cases hm : (m.completed && involves s.id m) = true
    · rw [if_pos hm] at e_p e_gw e_gl
      refine ⟨i_id, by rw [i_name, matchEffect_name], ?_, ?_, ?_, ?_, ?_, ?_⟩
      · rw [i_p, e_p, List.filter_cons, if_pos hm]
        simp only [List.length_cons]
        omega
      · rw [i_gw, e_gw, List.filter_cons, if_pos hm]
        simp only [List.map_cons, List.sum_cons]
        omega
      · rw [i_gl, e_gl, List.filter_cons, if_pos hm]
        simp only [List.map_cons, List.sum_cons]
        omega
      · rw [i_mw, e_mw, List.filter_cons, if_pos hm, List.countP_cons]
        by_cases hw : (m.winner == some s.id) = true <;> simp [hm, hw] <;> omega
      · rw [i_ml, e_ml, List.filter_cons, if_pos hm, List.countP_cons]
        by_cases hw : (m.winner.isSome && !(m.winner == some s.id)) = true <;>
          simp [hm, hw] <;> omega
      · rw [i_pts, e_pts]
        simp only [List.filter_cons, if_pos hm, List.countP_cons]
        cases hww : m.winner with
        | none => simp [hww]; omega
        | some w =>
          by_cases hw : w = s.id <;> simp [hww, hw] <;> omega
    · rw [if_neg hm] at e_p e_gw e_gl
      rw [if_neg (by simp_all : ¬(m.completed && involves s.id m &&
          (m.winner == some s.id)) = true)] at e_mw
      rw [if_neg (by simp_all : ¬(m.completed && involves s.id m &&
          (m.winner.isSome && !(m.winner == some s.id))) = true)] at e_ml
      rw [if_neg hm] at e_pts
      refine ⟨i_id, by rw [i_name, matchEffect_name], ?_, ?_, ?_, ?_, ?_, ?_⟩ <;>
        rw [List.filter_cons, if_neg hm]
      · rw [i_p, e_p]
        omega
      · rw [i_gw, e_gw]
        omega
      · rw [i_gl, e_gl]
        omega
      · rw [i_mw, e_mw]
        omega
      · rw [i_ml, e_ml]
        omega
      · rw [i_pts, e_pts]
        omega

/-- The standings fold is the map of the per-row `matchEffect` fold. -/
theorem foldl_applyMatch_eq (ms : List Match) :
    ∀ sts : List Standing, (sts.map fun s => s.id).Nodup →
      (∀ m ∈ ms, m.team1Id ∈ (sts.map fun s => s.id) ∧
        m.team2Id ∈ (sts.map fun s => s.id) ∧ m.team1Id ≠ m.team2Id) →
      ms.foldl (fun acc m => applyMatch m acc) sts =
        sts.map fun s => ms.foldl (fun s m => matchEffect m s) s := by
  induction ms with
  | nil =>
    intro sts _ _
    exact (map_eq_self_of sts _ fun s _ => rfl).symm
  | cons m ms ih =>
    intro sts hnd hmem
    obtain ⟨hm1, hm2, hmne⟩ := hmem m (by simp)
    rw [List.foldl_cons, applyMatch_eq_map m sts hnd hm1 hm2 hmne]
    have hids : ((sts.map (matchEffect m)).map fun s => s.id) = sts.map fun s => s.id := by
      rw [List.map_map]
      apply List.map_congr_left
      intro s _
      simp [matchEffect_id]
    rw [ih (sts.map (matchEffect m)) (by rw [hids]; exact hnd)
      (fun x hx => by
        rw [hids]
        exact hmem x (List.mem_cons_of_mem _ hx))]
    rw [List.map_map]
    rfl

/-! ## Claim C6: standings aggregation -/

/-- C6: for every pool (with the app's well-formed team ids and matches),
`calculateStandings` aggregates only the pool's completed matches: each
standing's `played` counts the completed pool matches involving the team;
games won/lost accumulate the two sides' games-won counters; a won match
adds 1 to `matchesWon` of the winner and 1 to `matchesLost` of the loser
and 2 points to the winner; a completed match with no winner adds 1 point
to both sides and touches neither `matchesWon` nor `matchesLost`;
incomplete matches contribute nothing. -/
theorem C6_calculateStandings_aggregation (st : TournamentState) (pool : Pool)
    (hnd : ((st.teams.pool pool).map fun t => t.id).Nodup)
    (hwf : ∀ m ∈ st.matches', m.pool = pool →
      (m.team1Id ∈ ((st.teams.pool pool).map fun t => t.id) ∧
       m.team2Id ∈ ((st.teams.pool pool).map fun t => t.id) ∧
       m.team1Id ≠ m.team2Id ∧
       (m.winner = none ∨ m.winner = some m.team1Id ∨ m.winner = some m.team2Id))) :
    ∀ s ∈ calculateStandings st pool,
      s.played = ((st.matches'.filter fun m => m.pool == pool).filter
          fun m => m.completed && involves s.id m).length ∧
      s.gamesWon = ((((st.matches'.filter fun m => m.pool == pool).filter
          fun m => m.completed && involves s.id m).map
          fun m => if m.team1Id = s.id then m.team1GamesWon else m.team2GamesWon).sum) ∧
      s.gamesLost = ((((st.matches'.filter fun m => m.pool == pool).filter
          fun m => m.completed && involves s.id m).map
          fun m => if m.team1Id = s.id then m.team2GamesWon else m.team1GamesWon).sum) ∧
      s.matchesWon = (((st.matches'.filter fun m => m.pool == pool).filter
          fun m => m.completed && involves s.id m).countP
          fun m => m.winner == some s.id) ∧
      s.matchesLost = (((st.matches'.filter fun m => m.pool == pool).filter
          fun m => m.completed && involves s.id m).countP
          fun m => m.winner.isSome && !(m.winner == some s.id)) ∧
      s.points = 2 * (((st.matches'.filter fun m => m.pool == pool).filter
          fun m => m.completed && involves s.id m).countP
          fun m => m.winner == some s.id) +
        (((st.matches'.filter fun m => m.pool == pool).filter
          fun m => m.completed && involves s.id m).countP
          fun m => m.winner == none) := by
  intro s hs
  unfold calculateStandings at hs
  have hs' := (List.perm_insertionSort standingGE (rawStandings st pool)).mem_iff.mp hs
  have hids := initStandings_ids (st.teams.pool pool)
  have hmem : ∀ m ∈ (st.matches'.filter fun m => m.pool == pool),
      m.team1Id ∈ ((initStandings (st.teams.pool pool)).map fun s => s.id) ∧
      m.team2Id ∈ ((initStandings (st.teams.pool pool)).map fun s => s.id) ∧
      m.team1Id ≠ m.team2Id := by
    intro m hm
    rw [List.mem_filter] at hm
    have hp : m.pool = pool := by simpa using hm.2
    obtain ⟨h1, h2, h3, _⟩ := hwf m hm.1 hp
    rw [hids]
    exact ⟨h1, h2, h3⟩
  have hraw : rawStandings st pool =
      (initStandings (st.teams.pool pool)).map
        fun s0 => (st.matches'.filter fun m => m.pool == pool).foldl
          (fun s m => matchEffect m s) s0 := by
    unfold rawStandings
    exact foldl_applyMatch_eq _ _ (by rw [hids]; exact hnd) hmem
  rw [hraw] at hs'
  obtain ⟨s0, hs0, hfold⟩ := List.mem_map.mp hs'
  have hfwf1 : ∀ m ∈ (st.matches'.filter fun m => m.pool == pool),
      m.team1Id ≠ m.team2Id := fun m hm => (hmem m hm).2.2
  have hfwf2 : ∀ m ∈ (st.matches'.filter fun m => m.pool == pool),
      m.winner = none ∨ m.winner = some m.team1Id ∨ m.winner = some m.team2Id := by
    intro m hm
    rw [List.mem_filter] at hm
    exact (hwf m hm.1 (by simpa using hm.2)).2.2.2
  obtain ⟨f_id, f_name, f_p, f_gw, f_gl, f_mw, f_ml, f_pts⟩ :=
    foldl_matchEffect_spec (st.matches'.filter fun m => m.pool == pool) s0 hfwf1 hfwf2
  rw [hfold] at f_id f_p f_gw f_gl f_mw f_ml f_pts
  unfold initStandings at hs0
  obtain ⟨t, ht, hs0eq⟩ := List.mem_map.mp hs0
  have h0p : s0.played = 0 := by rw [← hs0eq]
  have h0gw : s0.gamesWon = 0 := by rw [← hs0eq]
  have h0gl : s0.gamesLost = 0 := by rw [← hs0eq]
  have h0mw : s0.matchesWon = 0 := by rw [← hs0eq]
  have h0ml : s0.matchesLost = 0 := by rw [← hs0eq]
  have h0pts : s0.points = 0 := by rw [← hs0eq]
  refine ⟨?_, ?_, ?_, ?_, ?_, ?_⟩ <;> rw [f_id]
  · rw [f_p, h0p]
    omega
  · rw [f_gw, h0gw]
    omega
  · rw [f_gl, h0gl]
    omega
  · rw [f_mw, h0mw]
    omega
  · rw [f_ml, h0ml]
    omega
  · rw [f_pts, h0pts]
    omega

/-- Witness for C6 on a concrete pool with one completed match: the A1 row
shows played 1, 1 match and 2 games won, 1 game lost, 2 points. -/
theorem C6_witness :
    (Standing.mk "A1" "Aces" 1 1 0 2 1 2).played =
      ((demoStandState.matches'.filter fun m => m.pool == Pool.A).filter
        fun m => m.completed && involves (Standing.mk "A1" "Aces" 1 1 0 2 1 2).id m).length :=
  (C6_calculateStandings_aggregation demoStandState Pool.A (by decide)
    (by decide) (Standing.mk "A1" "Aces" 1 1 0 2 1 2) (by decide)).1

/-! ## Claim C7: standings ordering -/

/-- Inserting into the comparator order preserves the sublist of any fixed
(points, differential) key: the inserted element lands before all equal-key
elements already present only when it is the new head of that key class. -/
theorem filter_orderedInsert_key (x : Standing) (pts : Nat) (df : Int) :
    ∀ l : List Standing,
      (List.orderedInsert standingGE x l).filter
        (fun s => s.points == pts && standingDiff s == df) =
      if (x.points == pts && standingDiff x == df) = true then
        x :: l.filter (fun s => s.points == pts && standingDiff s == df)
      else l.filter (fun s => s.points == pts && standingDiff s == df) := by
  intro l
  induction l with
  | nil =>
    by_cases hp : (x.points == pts && standingDiff x == df) = true <;>
      simp [List.orderedInsert, List.filter_cons, hp]
  | cons y ys ih =>
    rw [List.orderedInsert]
    by_cases hr : standingGE x y
    · rw [if_pos hr]
      by_cases hp : (x.points == pts && standingDiff x == df) = true <;>
        simp [List.filter_cons, hp]
    · rw [if_neg hr]
      have hkey : ¬((x.points == pts && standingDiff x == df) = true ∧
          (y.points == pts && standingDiff y == df) = true) := by
        rintro ⟨hpx, hpy⟩
        simp only [Bool.and_eq_true, beq_iff_eq] at hpx hpy
        exact hr (Or.inr ⟨hpx.1.trans hpy.1.symm,
          by rw [hpy.2, hpx.2]⟩)
      rw [List.filter_cons, ih]
      by_cases hpx : (x.points == pts && standingDiff x == df) = true
      · have hpy : ¬(y.points == pts && standingDiff y == df) = true :=
          fun hy => hkey ⟨hpx, hy⟩
        simp [List.filter_cons, hpx, hpy]
      · by_cases hpy : (y.points == pts && standingDiff y == df) = true <;>
          simp [List.filter_cons, hpx, hpy]

/-- The insertion sort used by `calculateStandings` is stable: it preserves
the relative order of the rows inside every (points, differential) class. -/
theorem filter_insertionSort_key (pts : Nat) (df : Int) :
    ∀ l : List Standing,
      (List.insertionSort standingGE l).filter
        (fun s => s.points == pts && standingDiff s == df) =
      l.filter (fun s => s.points == pts && standingDiff s == df) := by
  intro l
  induction l with
  | nil => rfl
  | cons x xs ih =>
    rw [List.insertionSort, filter_orderedInsert_key x pts df
      (List.insertionSort standingGE xs), ih, List.filter_cons]

/-- C7: `calculateStandings` returns the aggregated rows sorted so that
each earlier row has more points than, or equal points and at least the
game differential of, every later row; the output is a permutation of the
aggregate; rows with equal points and differential keep their relative
order from the aggregate, whose order is the original pool order (its id
column is the pool's team-id column). -/
theorem C7_calculateStandings_order (st : TournamentState) (pool : Pool) :
    List.Sorted standingGE (calculateStandings st pool) ∧
    (calculateStandings st pool).Perm (rawStandings st pool) ∧
    (∀ (pts : Nat) (df : Int),
      (calculateStandings st pool).filter
        (fun s => s.points == pts && standingDiff s == df) =
      (rawStandings st pool).filter
        (fun s => s.points == pts && standingDiff s == df)) ∧
    ((rawStandings st pool).map fun s => s.id) =
      ((st.teams.pool pool).map fun t => t.id) :=
  ⟨List.sorted_insertionSort standingGE (rawStandings st pool),
   List.perm_insertionSort standingGE (rawStandings st pool),
   fun pts df => filter_insertionSort_key pts df (rawStandings st pool),
   rawStandings_ids st pool⟩

/-! ## Claim C1: semifinal slot resolution -/

theorem modifyFirst_length {α : Type} (p : α → Bool) (f : α → α) :
    ∀ l : List α, (modifyFirst p f l).length = l.length := by
  intro l
  induction l with
  | nil => rfl
  | cons x xs ih =>
    unfold modifyFirst
    split_ifs <;> simp [ih]

theorem applyMatch_length (m : Match) (sts : List Standing) :
    (applyMatch m sts).length = sts.length := by
  unfold applyMatch
  split_ifs <;> simp [modifyFirst_length]

theorem foldl_applyMatch_length (ms : List Match) :
    ∀ sts : List Standing,
      (ms.foldl (fun acc m => applyMatch m acc) sts).length = sts.length := by
  induction ms with
  | nil => intro sts; rfl
  | cons m ms ih =>
    intro sts
    rw [List.foldl_cons, ih, applyMatch_length]

/-- `calculateStandings` always returns one row per pool team — whether or
not any match has been completed. -/
theorem calculateStandings_length (st : TournamentState) (pool : Pool) :
    (calculateStandings st pool).length = (st.teams.pool pool).length := by
  unfold calculateStandings
  rw [(List.perm_insertionSort standingGE _).length_eq]
  unfold rawStandings
  rw [foldl_applyMatch_length]
  unfold initStandings
  simp

theorem find?_teamId_isSome {teams : List Team} {tid : String}
    (h : tid ∈ teams.map fun t => t.id) :
    (teams.find? fun t => t.id == tid).isSome = true := by
  induction teams with
  | nil => simp at h
  | cons x xs ih =>
    simp only [List.map_cons, List.mem_cons] at h
    rw [List.find?_cons]
    by_cases hx : (x.id == tid) = true
    · simp [hx]
    · have : tid ∈ xs.map fun t => t.id := by
        rcases h with h | h
        · exact absurd (by simp [h]) hx
        · exact h
      simp [hx, ih this]

/-- Every id in the sorted standings is a pool team id. -/
theorem calculateStandings_mem_id (st : TournamentState) (pool : Pool)
    {s : Standing} (hs : s ∈ calculateStandings st pool) :
    s.id ∈ (st.teams.pool pool).map fun t => t.id := by
  unfold calculateStandings at hs
  have hmem := (List.perm_insertionSort standingGE _).mem_iff.mp hs
  rw [← rawStandings_ids st pool]
  exact List.mem_map_of_mem _ hmem

/-- The rank lookup of `updateKnockoutTeams` succeeds as soon as the
referenced position exists in the pool's team list — no completed match is
required. -/
theorem getTeamData_rank_isSome (st : TournamentState) (pool : Pool) (pos : Nat)
    (hpos : pos - 1 < (st.teams.pool pool).length) :
    (getTeamData (calculateStandings st Pool.A) (calculateStandings st Pool.B)
      st.teams pool pos).isSome = true := by
  have hlen : pos - 1 < (calculateStandings st pool).length := by
    rw [calculateStandings_length]
    exact hpos
  cases hg : (calculateStandings st pool).get? (pos - 1) with
  | none =>
    rw [List.get?_eq_none] at hg
    omega
  | some srow =>
    have hmem : srow ∈ calculateStandings st pool := List.get?_mem hg
    have hid := calculateStandings_mem_id st pool hmem
    cases pool <;>
      · unfold getTeamData
        rw [hg]
        exact find?_teamId_isSome hid

/-- C1 (amended): after schedule generation, every standings recomputation
sets semi1's slots to the teams at (Pool-A rank 1, Pool-B rank 2) and
semi2's to (Pool-B rank 1, Pool-A rank 2) of the just-computed standings,
leaving the final, matches, teams and flag untouched; and with the app's
3-team pools these four rank lookups always produce a team — regardless of
how many matches are completed, a slot would be undetermined only if the
pool lacked a team at the referenced position. -/
theorem C1_updateKnockoutTeams_amended (st : TournamentState)
    (s1 s2 : KnockoutMatch)
    (hgen : st.scheduleGenerated = true)
    (hs1 : st.knockoutMatches.semi1 = some s1)
    (hs2 : st.knockoutMatches.semi2 = some s2)
    (hA3 : st.teams.A.length = 3) (hB3 : st.teams.B.length = 3) :
    (updateKnockoutTeams st).knockoutMatches.semi1 =
      some { s1 with
        team1 := getTeamData (calculateStandings st Pool.A)
          (calculateStandings st Pool.B) st.teams Pool.A 1
        team2 := getTeamData (calculateStandings st Pool.A)
          (calculateStandings st Pool.B) st.teams Pool.B 2 } ∧
    (updateKnockoutTeams st).knockoutMatches.semi2 =
      some { s2 with
        team1 := getTeamData (calculateStandings st Pool.A)
          (calculateStandings st Pool.B) st.teams Pool.B 1
        team2 := getTeamData (calculateStandings st Pool.A)
          (calculateStandings st Pool.B) st.teams Pool.A 2 } ∧
    (updateKnockoutTeams st).knockoutMatches.final = st.knockoutMatches.final ∧
    (updateKnockoutTeams st).matches' = st.matches' ∧
    (updateKnockoutTeams st).teams = st.teams ∧
    (updateKnockoutTeams st).scheduleGenerated = st.scheduleGenerated ∧
    (getTeamData (calculateStandings st Pool.A) (calculateStandings st Pool.B)
      st.teams Pool.A 1).isSome = true ∧
    (getTeamData (calculateStandings st Pool.A) (calculateStandings st Pool.B)
      st.teams Pool.A 2).isSome = true ∧
    (getTeamData (calculateStandings st Pool.A) (calculateStandings st Pool.B)
      st.teams Pool.B 1).isSome = true ∧
    (getTeamData (calculateStandings st Pool.A) (calculateStandings st Pool.B)
      st.teams Pool.B 2).isSome = true := by
  have hA1 := getTeamData_rank_isSome st Pool.A 1 (by simp [Teams.pool, hA3])
  have hA2 := getTeamData_rank_isSome st Pool.A 2 (by simp [Teams.pool, hA3])
  have hB1 := getTeamData_rank_isSome st Pool.B 1 (by simp [Teams.pool, hB3])
  have hB2 := getTeamData_rank_isSome st Pool.B 2 (by simp [Teams.pool, hB3])
  refine ⟨?_, ?_, ?_, ?_, ?_, ?_, hA1, hA2, hB1, hB2⟩ <;>
    simp [updateKnockoutTeams, hgen, hs1, hs2]

/-- Counterexample to C1 as stated: in a freshly generated schedule with no
completed match at all (so no ranking can be "produced" from results), both
of semi1's slots still resolve to concrete teams — the slot is never
"undetermined" merely because the standings lack completed matches. -/
theorem C1_counterexample :
    demoGenerated.scheduleGenerated = true ∧
    (∀ m ∈ demoGenerated.matches', m.completed = false) ∧
    ((updateKnockoutTeams demoGenerated).knockoutMatches.semi1.map
      fun k => k.team1.isSome) = some true ∧
    ((updateKnockoutTeams demoGenerated).knockoutMatches.semi1.map
      fun k => k.team2.isSome) = some true := by
  decide

/-- Witness for C1 (amended) on the freshly generated demo state. -/
theorem C1_witness :
    (getTeamData (calculateStandings demoGenerated Pool.A)
      (calculateStandings demoGenerated Pool.B)
      demoGenerated.teams Pool.A 1).isSome = true :=
  (C1_updateKnockoutTeams_amended demoGenerated
    (createKnockoutMatch "semi1" "A1" "B2") (createKnockoutMatch "semi2" "B1" "A2")
    (by decide) (by decide) (by decide) (by decide) (by decide)).2.2.2.2.2.2.1

/-! ## Claim C8: knockout progression into the final -/

/-- `progressSide` produces a value whenever a triggering semi has its
`team1` slot set. -/
theorem progressSide_isSome (semi : Option KnockoutMatch) (cur : Option Team)
    (hwf : ∀ s, semi = some s → s.completed = true → truthyStr s.winner = true →
      s.team1.isSome = true) :
    (progressSide semi cur).isSome = true := by
  cases semi with
  | none => rfl
  | some s =>
    simp only [progressSide]
    by_cases hc : (s.completed && truthyStr s.winner) = true
    · rw [if_pos hc]
      simp only [Bool.and_eq_true] at hc
      have := hwf s rfl hc.1 hc.2
      cases ht : s.team1 with
      | none => rw [ht] at this; simp at this
      | some t1 => simp [ht]
    · rw [if_neg hc]
      rfl

/-- Value of `progressSide` on a completed semi with a truthy winner. -/
theorem progressSide_of_winner (s : KnockoutMatch) (cur : Option Team)
    (t1 : Team) (w : String)
    (hc : s.completed = true) (hw : s.winner = some w) (hne : w ≠ "")
    (ht1 : s.team1 = some t1) :
    progressSide (some s) cur = some (if w = t1.id then some t1 else s.team2) := by
  simp only [progressSide]
  rw [if_pos (by simp [hc, hw, truthyStr, hne])]
  simp only [ht1, hw, ht1, Option.some.injEq]

/-- Shape of a successful `updateKnockoutProgression`: the final's slots
become the two `progressSide` results, and its games are created from the
pairing scheme exactly when both slots are set and the games list was
empty. -/
theorem updateKP_eq (km : KnockoutMatches) (f : KnockoutMatch)
    (hf : km.final = some f) (km2 : KnockoutMatches)
    (h : updateKnockoutProgression km = some km2) :
    ∃ t1 t2, progressSide km.semi1 f.team1 = some t1 ∧
      progressSide km.semi2 f.team2 = some t2 ∧
      ((∃ a b, t1 = some a ∧ t2 = some b ∧ f.games = [] ∧
         km2 = withFinal km (setGames (setSlots f t1 t2) (initKnockoutGames a b))) ∨
       ((t1 = none ∨ t2 = none ∨ f.games ≠ []) ∧
         km2 = withFinal km (setSlots f t1 t2))) := by
  simp only [updateKnockoutProgression, hf] at h
  cases hp1 : progressSide km.semi1 f.team1 with
  | none =>
    cases hp2 : progressSide km.semi2 f.team2 with
    | none => rw [hp1, hp2] at h; simp at h
    | some t2 => rw [hp1, hp2] at h; simp at h
  | some t1 =>
    cases hp2 : progressSide km.semi2 f.team2 with
    | none => rw [hp1, hp2] at h; simp at h
    | some t2 =>
      rw [hp1, hp2] at h
      simp only [] at h
      refine ⟨t1, t2, rfl, rfl, ?_⟩
      cases t1 with
      | none =>
        cases t2 with
        | none =>
          simp only [Option.some.injEq] at h
          exact Or.inr ⟨Or.inl rfl, h.symm⟩
        | some b =>
          simp only [Option.some.injEq] at h
          exact Or.inr ⟨Or.inl rfl, h.symm⟩
      | some a =>
        cases t2 with
        | none =>
          simp only [Option.some.injEq] at h
          exact Or.inr ⟨Or.inr (Or.inl rfl), h.symm⟩
        | some b =>
          simp only [] at h
          by_cases hg : f.games = []
          · left
            refine ⟨a, b, rfl, rfl, hg, ?_⟩
            rw [if_pos (by simpa [setSlots] using hg)] at h
            simp only [Option.some.injEq] at h
            exact h.symm
          · right
            refine ⟨Or.inr (Or.inr hg), ?_⟩
            rw [if_neg (by simpa [setSlots] using hg)] at h
            simp only [Option.some.injEq] at h
            exact h.symm

/-- C8: once a semifinal is completed with a (truthy) winner, a successful
`updateKnockoutProgression` run puts the winner's team into the matching
side of the final (semi1 → side 1, semi2 → side 2); the run succeeds
whenever every triggering semi has its `team1` slot set; the final's games
are created from the fixed index-pairing scheme exactly the first time
both its sides are resolved while its games list is empty; and a final
that already has games keeps them unchanged. -/
theorem C8_knockout_progression (km : KnockoutMatches) (f : KnockoutMatch)
    (hf : km.final = some f) :
    ((∀ s, km.semi1 = some s → s.completed = true → truthyStr s.winner = true →
        s.team1.isSome = true) →
     (∀ s, km.semi2 = some s → s.completed = true → truthyStr s.winner = true →
        s.team1.isSome = true) →
     (updateKnockoutProgression km).isSome = true) ∧
    (∀ km2 f2 s1 t1 t2 w, updateKnockoutProgression km = some km2 →
      km2.final = some f2 →
      km.semi1 = some s1 → s1.completed = true → s1.winner = some w → w ≠ "" →
      s1.team1 = some t1 → s1.team2 = some t2 →
      f2.team1 = some (if w = t1.id then t1 else t2)) ∧
    (∀ km2 f2 s2 t1 t2 w, updateKnockoutProgression km = some km2 →
      km2.final = some f2 →
      km.semi2 = some s2 → s2.completed = true → s2.winner = some w → w ≠ "" →
      s2.team1 = some t1 → s2.team2 = some t2 →
      f2.team2 = some (if w = t1.id then t1 else t2)) ∧
    (∀ km2 f2, updateKnockoutProgression km = some km2 → km2.final = some f2 →
      ((∀ a b, f2.team1 = some a → f2.team2 = some b → f.games = [] →
          f2.games = initKnockoutGames a b) ∧
       (f.games ≠ [] → f2.games = f.games))) := by
  refine ⟨?_, ?_, ?_, ?_⟩
  · intro hwf1 hwf2
    cases hp1 : progressSide km.semi1 f.team1 with
    | none =>
      have := progressSide_isSome km.semi1 f.team1 hwf1
      rw [hp1] at this
      simp at this
    | some t1 =>
      cases hp2 : progressSide km.semi2 f.team2 with
      | none =>
        have := progressSide_isSome km.semi2 f.team2 hwf2
        rw [hp2] at this
        simp at this
      | some t2 =>
        simp only [updateKnockoutProgression, hf, hp1, hp2]
        cases t1 with
        | none => cases t2 <;> simp
        | some a =>
          cases t2 with
          | none => simp
          | some b => by_cases hg : (setSlots f (some a) (some b)).games = [] <;> simp [hg]
  · intro km2 f2 s1 t1 t2 w h hf2 hs1 hc hw hwne ht1 ht2
    obtain ⟨v1, v2, hp1, hp2, hcase⟩ := updateKP_eq km f hf km2 h
    rw [hs1, progressSide_of_winner s1 f.team1 t1 w hc hw hwne ht1] at hp1
    have hv1 : v1 = if w = t1.id then some t1 else some t2 := by
      rw [← Option.some_inj.mp hp1, ht2]
    rcases hcase with ⟨a, b, hva, hvb, hge, hkm2⟩ | ⟨hor, hkm2⟩
    · subst hkm2
      simp only [withFinal, Option.some.injEq] at hf2
      rw [← hf2]
      rw [show (setGames (setSlots f v1 v2) (initKnockoutGames a b)).team1 = v1
        from rfl, hv1]
      by_cases hwt : w = t1.id <;> simp [hwt]
    · subst hkm2
      simp only [withFinal, Option.some.injEq] at hf2
      rw [← hf2]
      rw [show (setSlots f v1 v2).team1 = v1 from rfl, hv1]
      by_cases hwt : w = t1.id <;> simp [hwt]
  · intro km2 f2 s2 t1 t2 w h hf2 hs2 hc hw hwne ht1 ht2
    obtain ⟨v1, v2, hp1, hp2, hcase⟩ := updateKP_eq km f hf km2 h
    rw [hs2, progressSide_of_winner s2 f.team2 t1 w hc hw hwne ht1] at hp2
    have hv2 : v2 = if w = t1.id then some t1 else some t2 := by
      rw [← Option.some_inj.mp hp2, ht2]
    rcases hcase with ⟨a, b, hva, hvb, hge, hkm2⟩ | ⟨hor, hkm2⟩
    · subst hkm2
      simp only [withFinal, Option.some.injEq] at hf2
      rw [← hf2]
      rw [show (setGames (setSlots f v1 v2) (initKnockoutGames a b)).team2 = v2
        from rfl, hv2]
      by_cases hwt : w = t1.id <;> simp [hwt]
    · subst hkm2
      simp only [withFinal, Option.some.injEq] at hf2
      rw [← hf2]
      rw [show (setSlots f v1 v2).team2 = v2 from rfl, hv2]
      by_cases hwt : w = t1.id <;> simp [hwt]
  · intro km2 f2 h hf2
    obtain ⟨v1, v2, hp1, hp2, hcase⟩ := updateKP_eq km f hf km2 h
    rcases hcase with ⟨a, b, hva, hvb, hge, hkm2⟩ | ⟨hor, hkm2⟩
    · subst hkm2
      simp only [withFinal, Option.some.injEq] at hf2
      constructor
      · intro a2 b2 ha2 hb2 _
        have ha2v : v1 = some a2 := by rw [← hf2] at ha2; exact ha2
        have hb2v : v2 = some b2 := by rw [← hf2] at hb2; exact hb2
        rw [hva] at ha2v
        rw [hvb] at hb2v
        cases ha2v
        cases hb2v
        rw [← hf2]
        exact rfl
      · intro hne
        exact absurd hge hne
    · subst hkm2
      simp only [withFinal, Option.some.injEq] at hf2
      constructor
      · intro a2 b2 ha2 hb2 hge
        rcases hor with h0 | h0 | h0
        · have ha2v : v1 = some a2 := by rw [← hf2] at ha2; exact ha2
          rw [h0] at ha2v
          simp at ha2v
        · have hb2v : v2 = some b2 := by rw [← hf2] at hb2; exact hb2
          rw [h0] at hb2v
          simp at hb2v
        · exact absurd hge h0
      · intro _
        rw [← hf2]
        exact rfl

/-- Witness for C8: with semi1 decided for team A1 and a fresh final, the
final's side 1 becomes team A1. -/
theorem C8_witness : demoFinRes.team1 = some tA1 :=
  (C8_knockout_progression demoKm demoFinalFresh rfl).2.1 demoKmRes demoFinRes
    demoSemi1Done tA1 tB2 "A1" (by decide) (by decide) rfl (by decide) rfl
    (by decide) rfl rfl

/-! ## Claim C10: patch-based updates (`db.ts`) -/

/-- `replaceMatch` on a decomposed list with the target first at `m`. -/
theorem replaceMatch_append (matchId : String) (p : MatchPatch) (m : Match)
    (post : List Match) :
    ∀ pre : List Match, (∀ m2 ∈ pre, m2.id ≠ matchId) → m.id = matchId →
      replaceMatch matchId p (pre ++ m :: post) =
        some (pre ++ mergeMatch m p :: post) := by
  intro pre
  induction pre with
  | nil =>
    intro _ hm
    simp only [List.nil_append, replaceMatch]
    rw [if_pos (by simp [hm])]
  | cons x xs ih =>
    intro hpre hm
    have hx : x.id ≠ matchId := hpre x (by simp)
    simp only [List.cons_append, replaceMatch]
    rw [if_neg (by simp [hx])]
    simp only [List.append_eq]
    rw [ih (fun m2 hm2 => hpre m2 (List.mem_cons_of_mem _ hm2)) hm]
    rfl

/-- C10: `updateMatch` on a state whose match list contains the given id
replaces exactly the first such match by the shallow merge of its old
value with the patch, leaving `teams`, `knockoutMatches`,
`scheduleGenerated` and every other match unchanged, and every field
absent from the patch keeps its previous value; `updateKnockoutMatch`
behaves likewise on the keyed non-null knockout match, leaving the other
bracket slots unchanged. -/
theorem C10_patch_updates :
    (∀ (st : TournamentState) (matchId : String) (p : MatchPatch)
        (pre post : List Match) (m : Match),
      st.matches' = pre ++ m :: post →
      (∀ m2 ∈ pre, m2.id ≠ matchId) →
      m.id = matchId →
      updateMatch st matchId p =
        .ok { st with matches' := pre ++ mergeMatch m p :: post }) ∧
    (∀ (m : Match) (p : MatchPatch),
      (p.id = none → (mergeMatch m p).id = m.id) ∧
      (p.pool = none → (mergeMatch m p).pool = m.pool) ∧
      (p.team1Id = none → (mergeMatch m p).team1Id = m.team1Id) ∧
      (p.team2Id = none → (mergeMatch m p).team2Id = m.team2Id) ∧
      (p.team1Name = none → (mergeMatch m p).team1Name = m.team1Name) ∧
      (p.team2Name = none → (mergeMatch m p).team2Name = m.team2Name) ∧
      (p.games = none → (mergeMatch m p).games = m.games) ∧
      (p.team1GamesWon = none → (mergeMatch m p).team1GamesWon = m.team1GamesWon) ∧
      (p.team2GamesWon = none → (mergeMatch m p).team2GamesWon = m.team2GamesWon) ∧
      (p.winner = none → (mergeMatch m p).winner = m.winner) ∧
      (p.completed = none → (mergeMatch m p).completed = m.completed)) ∧
    (∀ (st : TournamentState) (key : KnockoutKey) (p : KnockoutPatch)
        (k : KnockoutMatch),
      st.knockoutMatches.get key = some k →
      (updateKnockoutMatch st key p =
        .ok { st with knockoutMatches :=
          st.knockoutMatches.set key (some (mergeKnockoutMatch k p)) } ∧
       ∀ key2, key2 ≠ key →
        (st.knockoutMatches.set key (some (mergeKnockoutMatch k p))).get key2 =
          st.knockoutMatches.get key2)) ∧
    (∀ (k : KnockoutMatch) (p : KnockoutPatch),
      (p.id = none → (mergeKnockoutMatch k p).id = k.id) ∧
      (p.seed1 = none → (mergeKnockoutMatch k p).seed1 = k.seed1) ∧
      (p.seed2 = none → (mergeKnockoutMatch k p).seed2 = k.seed2) ∧
      (p.team1 = none → (mergeKnockoutMatch k p).team1 = k.team1) ∧
      (p.team2 = none → (mergeKnockoutMatch k p).team2 = k.team2) ∧
      (p.games = none → (mergeKnockoutMatch k p).games = k.games) ∧
      (p.winner = none → (mergeKnockoutMatch k p).winner = k.winner) ∧
      (p.completed = none → (mergeKnockoutMatch k p).completed = k.completed)) := by
  refine ⟨?_, ?_, ?_, ?_⟩
  · intro st matchId p pre post m hdec hpre hm
    unfold updateMatch
    rw [hdec, replaceMatch_append matchId p m post pre hpre hm]
  · intro m p
    refine ⟨?_, ?_, ?_, ?_, ?_, ?_, ?_, ?_, ?_, ?_, ?_⟩ <;>
      · intro h
        simp [mergeMatch, h]
  · intro st key p k hk
    constructor
    · unfold updateKnockoutMatch
      rw [hk]
    · intro key2 hne
      cases key <;> cases key2 <;>
        simp_all [KnockoutMatches.get, KnockoutMatches.set]
  · intro k p
    refine ⟨?_, ?_, ?_, ?_, ?_, ?_, ?_, ?_⟩ <;>
      · intro h
        simp [mergeKnockoutMatch, h]

/-- Witness for C10 at a concrete state, id and patch. -/
theorem C10_witness :
    updateMatch demoStandState "A-A1-A2" patchW =
      .ok { demoStandState with
        matches' := [] ++ mergeMatch demoDoneMatch patchW :: [] } :=
  C10_patch_updates.1 demoStandState "A-A1-A2" patchW [] [] demoDoneMatch
    rfl (by intro m2 hm2; cases hm2) rfl

end Showdown
